import Mathlib

/-!
Verification of the Grafana API client (`src/index.js`).

The client is a single-connection WebSocket protocol client.  We give a
shallow embedding of its state and of every reactive handler registered in
`connect()` (open / message / error / close), of `disconnect`, and of the
outbound operations `sendStats`, `sendLog` and `remoteEval`.  JavaScript
values travelling in the `{op, d}` envelopes are modelled by `JVal`;
JavaScript numbers are modelled by `ℚ` (every number the client computes is
a dyadic rational, exactly representable); promise outcomes are modelled by
`PromiseState` (the first `resolve`/`reject`/throw settles the promise, the
executor keeps running after a bare `reject`).
-/

namespace Grafana

/-- A JavaScript value as it appears in a decoded JSON envelope or as an
argument to a client method.  `undefined` is JavaScript `undefined` (a missing
argument or field). -/
inductive JVal where
  | undefined
  | null
  | bool (b : Bool)
  | num (q : ℚ)
  | str (s : String)
  | obj (fields : List (String × JVal))
  | arr (elems : List JVal)

/-- Field lookup in a JavaScript object literal: first binding wins,
missing fields read as `undefined`. -/
def getField : List (String × JVal) → String → JVal
  | [], _ => .undefined
  | (k, v) :: rest, key => if k = key then v else getField rest key

/-- Property access `v.key`: yields the field of an object, `undefined`
otherwise (the envelopes the client reads fields from are objects). -/
def JVal.get : JVal → String → JVal
  | .obj fs, key => getField fs key
  | _, _ => .undefined

/-- JavaScript truthiness, as tested by `if (json.d)`. -/
def JVal.truthy : JVal → Bool
  | .undefined => false
  | .null => false
  | .bool b => b
  | .num q => decide (q ≠ 0)
  | .str s => decide (s ≠ "")
  | .obj _ => true
  | .arr _ => true

/-- Whether `typeof v === 'number'`. -/
def JVal.isNum : JVal → Bool
  | .num _ => true
  | _ => false

/-- Whether `v === undefined`. -/
def JVal.isUndefined : JVal → Bool
  | .undefined => true
  | _ => false

/-- Strict equality `v === q` between a decoded value and a known number. -/
def JVal.eqNum : JVal → ℚ → Bool
  | .num q', q => decide (q' = q)
  | _, _ => false

/-- The wire envelope `{op, d}` of an inbound message, after `JSON.parse`. -/
structure Envelope where
  op : Int
  d : JVal

/-- An outbound frame `JSON.stringify({op, d})` passed to `ws.send`. -/
structure Frame where
  op : Int
  d : JVal

/-- The transport handle `this.ws`: `absent` is `null`, `connecting` is a
constructed socket whose `open` event has not fired, `openSt` is a socket
with `readyState === OPEN`. -/
inductive WsState where
  | absent
  | connecting
  | openSt
deriving DecidableEq

/-- The mutable state of a `GrafanaAPIClient` instance: the transport
handle, the auto-reconnect flag, the backoff wait time (seconds), the
array `__remoteEvalUIDs` of pending remote-eval correlation ids, the
recorded heartbeat interval, and the immutable identity fields. -/
structure Client where
  ws : WsState
  reconnect : Bool
  waitTime : ℚ
  remoteEvalUIDs : List ℚ
  heartbeatInterval : JVal
  token : String
  clusterID : ℚ
  clusterCount : ℚ

/-- The constructor `new GrafanaAPIClient(token, clusterID, clusterCount)`:
no socket yet, `reconnect = true`, `waitTime = 3`, no pending eval uids. -/
def mkClient (token : String) (clusterID clusterCount : ℚ) : Client :=
  { ws := .absent, reconnect := true, waitTime := 3, remoteEvalUIDs := []
    heartbeatInterval := .undefined, token := token, clusterID := clusterID
    clusterCount := clusterCount }

/-- A consumer-visible event emitted by the client. -/
inductive Emitted where
  | connectEvt
  | ready
  | send
  | disconnect
  | clustersDataUpdate (d : JVal)
  | clusterStatusUpdate (d : JVal)
  | remoteEvalReq (data : JVal)

/-- The observable side effects of one reactive handler invocation:
events emitted, frames sent, close codes issued on the transport, whether
a reconnect timer was scheduled, and whether a connection error was
surfaced (thrown or delivered on the `error` event, depending on whether
the consumer registered a listener). -/
structure Effects where
  emitted : List Emitted
  sent : List Frame
  closes : List Int
  reconnectScheduled : Bool
  errorSurfaced : Bool

/-- No observable effect. -/
def Effects.none : Effects :=
  { emitted := [], sent := [], closes := [], reconnectScheduled := false
    errorSurfaced := false }

/-- The `IDENTIFY` frame `{op:2, d:{token, clusterCount, clusterID}}` sent
in reply to `HELLO`. -/
def identifyFrame (c : Client) : Frame :=
  ⟨2, .obj [("token", .str c.token), ("clusterCount", .num c.clusterCount),
            ("clusterID", .num c.clusterID)]⟩

/-- Whether `this.__remoteEvalUIDs.includes(json.d.uid)`. -/
def uidIncluded (c : Client) (d : JVal) : Bool :=
  match d.get "uid" with
  | .num q => decide (q ∈ c.remoteEvalUIDs)
  | _ => false

/-- The `'open'` handler: emits `connect` and resets `waitTime` to 3.
The transport is now open. -/
def handleOpen (c : Client) : Client × Effects :=
  ({ c with ws := .openSt, waitTime := 3 },
   { Effects.none with emitted := [.connectEvt] })

/-- The `'message'` handler: the `switch (json.op)` dispatch.  Opcode 0
records the heartbeat interval and sends `IDENTIFY`; 1 emits `ready`;
4 emits `send`; 7 emits `clustersDataUpdate`; 8 emits
`clusterStatusUpdate` only for a truthy payload; 9 ignores the message
when its `uid` is a pending correlation id of this instance and otherwise
emits a `remoteEval` request event; any other opcode closes the transport
with code 4001 and nulls the handle. -/
def handleMessage (c : Client) (json : Envelope) : Client × Effects :=
  if json.op = 0 then
    ({ c with heartbeatInterval := json.d.get "heartbeatInterval" },
     { Effects.none with sent := [identifyFrame c] })
  else if json.op = 1 then
    (c, { Effects.none with emitted := [.ready] })
  else if json.op = 4 then
    (c, { Effects.none with emitted := [.send] })
  else if json.op = 7 then
    (c, { Effects.none with emitted := [.clustersDataUpdate json.d] })
  else if json.op = 8 then
    if json.d.truthy then
      (c, { Effects.none with emitted := [.clusterStatusUpdate json.d] })
    else
      (c, Effects.none)
  else if json.op = 9 then
    if uidIncluded c json.d then
      (c, Effects.none)
    else
      (c, { Effects.none with emitted := [.remoteEvalReq (json.d.get "data")] })
  else
    ({ c with ws := .absent }, { Effects.none with closes := [4001] })

/-- The responder-role callback handed out with a `remoteEval` event:
called with `(err, value)` it sends exactly one reply frame
`{op:9, d:{id, uid, data: err or value}}`. -/
def remoteEvalCallback (reqId reqUid : JVal) (err : Option JVal) (value : JVal) : Frame :=
  match err with
  | some e => ⟨9, .obj [("id", reqId), ("uid", reqUid), ("data", e)]⟩
  | none => ⟨9, .obj [("id", reqId), ("uid", reqUid), ("data", value)]⟩

/-- The `'error'` handler: emits `disconnect`, grows the backoff
(`waitTime += waitTime / 2`), nulls the handle, always schedules a
reconnect, and surfaces the error. -/
def handleError (c : Client) : Client × Effects :=
  ({ c with ws := .absent, waitTime := c.waitTime + c.waitTime / 2 },
   { Effects.none with
     emitted := [.disconnect]
     reconnectScheduled := true
     errorSurfaced := true })

/-- The `'close'` handler: emits `disconnect`, grows the backoff
identically, nulls the handle, schedules a reconnect only when
`this.reconnect` is true, and surfaces a `GrafanaAPIError` built from the
close code and message. -/
def handleClose (c : Client) (_code : Int) (_message : String) : Client × Effects :=
  ({ c with ws := .absent, waitTime := c.waitTime + c.waitTime / 2 },
   { Effects.none with
     emitted := [.disconnect]
     reconnectScheduled := c.reconnect
     errorSurfaced := true })

/-- The explicit `disconnect(reconnect)` call: closes the transport with
code 1000, nulls the handle, and sets the auto-reconnect flag to the
argument when one is supplied, otherwise preserves the previous value.
(The call dereferences `this.ws`, so it is modelled for a present
handle.) -/
def disconnectCall (c : Client) (reconnectArg : Option Bool) : Client × Effects :=
  ({ c with ws := .absent, reconnect := reconnectArg.getD c.reconnect },
   { Effects.none with closes := [1000] })

/-- A connection-lifecycle event delivered to the client: an explicit
`connect()` call, the transport `open` signal, an inbound message, a
transport error, or a transport close. -/
inductive ConnEvent where
  | connectCall
  | openEv
  | msgEv (m : Envelope)
  | errorEv
  | closeEv (code : Int) (message : String)

/-- Whether the event is a disconnect signal (transport error or close). -/
def ConnEvent.isDisconnect : ConnEvent → Bool
  | .errorEv => true
  | .closeEv _ _ => true
  | _ => false

/-- One step of the client under a lifecycle event.  `connect()` itself
only allocates a fresh socket. -/
def stepEvent (c : Client) : ConnEvent → Client × Effects
  | .connectCall => ({ c with ws := .connecting }, Effects.none)
  | .openEv => handleOpen c
  | .msgEv m => handleMessage c m
  | .errorEv => handleError c
  | .closeEv code msg => handleClose c code msg

/-- The client state after a sequence of lifecycle events. -/
def runEvents (c : Client) : List ConnEvent → Client
  | [] => c
  | e :: es => runEvents (stepEvent c e).1 es

/-- How a promise returned by a client method settles:  still pending,
resolved (with no value or with a value), or rejected.  Per JavaScript
semantics only the first `resolve`/`reject`/throw counts. -/
inductive Rejection where
  | plainStr (s : String)
  | notConnectedError
  | refErrorErr
deriving DecidableEq

/-- Outcome of a promise-returning call. -/
inductive PromiseState where
  | pending
  | resolvedUnit
  | resolvedVal (v : JVal)
  | rejectedWith (r : Rejection)

/-- `sendStats(guildCount, cpuUsage, memUsage, ping)`: the executor rejects
on a missing argument, then rejects on a non-number argument, then rejects
when the socket is not open — but never returns early, so when the socket
is open the `{op:3, d:{...}}` frame is sent regardless; the promise keeps
its first settlement.  When the socket is open and no rejection fired, the
send callback resolves the promise. -/
def sendStats (c : Client) (guildCount cpuUsage memUsage ping : JVal) :
    PromiseState × List Frame :=
  let r1 : Option Rejection :=
    if guildCount.isUndefined || cpuUsage.isUndefined || memUsage.isUndefined || ping.isUndefined then
      some (.plainStr "all arguments required")
    else none
  let r2 : Option Rejection :=
    if !(guildCount.isNum && cpuUsage.isNum && memUsage.isNum && ping.isNum) then
      some (.plainStr "all arguements must me numbers")
    else none
  let r3 : Option Rejection :=
    if c.ws = .openSt then none else some .notConnectedError
  let firstReject := (r1 <|> r2) <|> r3
  if c.ws = .openSt then
    (match firstReject with
     | some r => .rejectedWith r
     | none => .resolvedUnit,
     [⟨3, .obj [("guildCount", guildCount), ("cpuUsage", cpuUsage),
                ("memUsage", memUsage), ("ping", ping)]⟩])
  else
    (match firstReject with
     | some r => .rejectedWith r
     | none => .pending,
     [])

/-- `sendLog(log)`: the executor rejects when the socket is not open, and
then reads the undeclared variable `err` (`if (!err) ...`), which throws a
`ReferenceError`; the throw rejects the promise when it is still
unsettled and aborts the executor before the `ws.send` line, so no frame
is ever sent. -/
def sendLog (c : Client) (_log : JVal) : PromiseState × List Frame :=
  let r1 : Option Rejection :=
    if c.ws = .openSt then none else some .notConnectedError
  (.rejectedWith (r1.getD .refErrorErr), [])

/-- Removal of `uid` from `__remoteEvalUIDs` as performed by
`delete this.__remoteEvalUIDs[this.__remoteEvalUIDs.indexOf(uid)]`:
the first occurrence, when present, stops being an element. -/
def eraseFirst (q : ℚ) : List ℚ → List ℚ
  | [] => []
  | x :: xs => if x = q then xs else x :: eraseFirst q xs

/-- `remoteEval(clusterID, data)`: throws when the socket is not open;
otherwise takes `uid = Date.now()` (the clock value `now`), pushes it onto
`__remoteEvalUIDs`, and sends `{op:9, d:{id: clusterID, data, uid}}`.
Returns the updated client, the frame, and the correlation id. -/
def remoteEval (c : Client) (clusterID : ℚ) (data : JVal) (now : ℚ) :
    Except Rejection (Client × Frame × ℚ) :=
  if c.ws = .openSt then
    .ok ({ c with remoteEvalUIDs := c.remoteEvalUIDs ++ [now] },
         ⟨9, .obj [("id", .num clusterID), ("data", data), ("uid", .num now)]⟩,
         now)
  else
    .error .notConnectedError

/-- The transient `__getRemoteEvalData` listener installed by a
`remoteEval` call, together with whether it is still attached to the
socket. -/
structure EvalListener where
  clusterID : ℚ
  uid : ℚ
  attached : Bool

/-- The listener freshly installed by `remoteEval`. -/
def mkListener (clusterID uid : ℚ) : EvalListener :=
  { clusterID := clusterID, uid := uid, attached := true }

/-- Delivery of one inbound message to the transient listener: when still
attached and the message satisfies
`json.op === 9 && json.d.id === clusterID && json.d.uid === uid`, the
pending uid entry is deleted, the listener detaches itself
(`ws.off('message', ...)`), and the promise resolves with `json.d.data`;
otherwise nothing happens.  Returns the listener, the updated uid list,
and the resolution produced by this delivery, if any. -/
def evalListenerFeed (L : EvalListener) (uids : List ℚ) (msg : Envelope) :
    EvalListener × List ℚ × Option JVal :=
  if L.attached then
    if msg.op == 9 && (msg.d.get "id").eqNum L.clusterID
        && (msg.d.get "uid").eqNum L.uid then
      ({ L with attached := false }, eraseFirst L.uid uids, some (msg.d.get "data"))
    else
      (L, uids, none)
  else
    (L, uids, none)

/-- A concrete client whose socket is open, used to instantiate theorems. -/
def demoClient : Client :=
  { mkClient "tok" 1 2 with ws := .openSt }

/-! ## Helper lemmas -/

/-- Deleting `q` from `xs ++ [q]` restores `xs` when `q` did not occur in
`xs`: the remote-eval pending entry is removed exactly. -/
theorem eraseFirst_append_self (q : ℚ) (xs : List ℚ) (h : q ∉ xs) :
    eraseFirst q (xs ++ [q]) = xs := by
  induction xs with
  | nil => simp [eraseFirst]
  | cons x xs ih =>
    simp only [List.mem_cons, not_or] at h
    simp [eraseFirst, Ne.symm h.1, ih h.2]

/-- Every disconnect signal multiplies the wait time by 3/2, so a run of
disconnect-only events multiplies it by (3/2)^length. -/
theorem waitTime_runEvents_disconnects (c : Client) (es : List ConnEvent)
    (h : ∀ e ∈ es, e.isDisconnect = true) :
    (runEvents c es).waitTime = c.waitTime * (3 / 2) ^ es.length := by
  induction es generalizing c with
  | nil => simp [runEvents]
  | cons e es ih =>
    have he : e.isDisconnect = true := h e (by simp)
    have hrest : ∀ x ∈ es, x.isDisconnect = true := fun x hx => h x (by simp [hx])
    cases e with
    | errorEv =>
      rw [runEvents, stepEvent, handleError, ih _ hrest]
      simp only [List.length_cons, pow_succ]
      ring
    | closeEv code msg =>
      rw [runEvents, stepEvent, handleClose, ih _ hrest]
      simp only [List.length_cons, pow_succ]
      ring
    | connectCall => simp [ConnEvent.isDisconnect] at he
    | openEv => simp [ConnEvent.isDisconnect] at he
    | msgEv m => simp [ConnEvent.isDisconnect] at he

/-! ## Claims -/

/-- C10: receiving opcode 8 with a falsy payload emits no
`clusterStatusUpdate` event and leaves the client state unchanged; with a
truthy payload it emits exactly one `clusterStatusUpdate` event carrying
that payload (and no other effect in either case). -/
theorem clusterStatus_emit_iff_truthy (c : Client) (d : JVal) :
    (handleMessage c ⟨8, d⟩).1 = c ∧
    (handleMessage c ⟨8, d⟩).2 =
      { Effects.none with
        emitted := if d.truthy then [.clusterStatusUpdate d] else [] } := by
  cases h : d.truthy <;> simp [handleMessage, h, Effects.none]

/-- C4 counterexample: a connection that has just opened — no HELLO and no
READY_ACK were received on it — already dispatches the steady-state opcode
4 to its handler: the `send` event is emitted.  There is no handshake
gating in the message handler. -/
theorem steady_before_handshake_cex :
    (handleMessage (runEvents (mkClient "tok" 1 2) [.connectCall, .openEv])
      ⟨4, .null⟩).2.emitted = [.send] := by
  rfl

/-- C4 amended: the message handler dispatches every steady-state opcode
(4, 7, 8, 9) immediately on receipt, in every client state, with no
handshake gating: opcodes arriving before HELLO/READY_ACK are handled the
same as after. -/
theorem no_handshake_gating (c : Client) (d : JVal) :
    (handleMessage c ⟨4, d⟩).2.emitted = [.send] ∧
    (handleMessage c ⟨7, d⟩).2.emitted = [.clustersDataUpdate d] ∧
    (handleMessage c ⟨8, d⟩).2.emitted
      = (if d.truthy then [.clusterStatusUpdate d] else []) ∧
    (handleMessage c ⟨9, d⟩).2.emitted
      = (if uidIncluded c d then [] else [.remoteEvalReq (d.get "data")]) := by
  cases h8 : d.truthy <;> cases h9 : uidIncluded c d <;>
    simp [handleMessage, h8, h9, Effects.none]

/-- C3 counterexample: after one disconnect the wait time is 9/2; receiving
READY_ACK (opcode 1) leaves it at 9/2 — the handshake completion does not
reset it — while the transport `open` event, which precedes any handshake
on the new connection, resets it to 3. -/
theorem backoff_ready_no_reset_cex :
    (handleMessage (runEvents (mkClient "tok" 1 2) [.connectCall, .errorEv])
      ⟨1, .null⟩).1.waitTime = 9 / 2 ∧
    (9 / 2 : ℚ) ≠ 3 ∧
    (stepEvent (runEvents (mkClient "tok" 1 2) [.connectCall, .errorEv])
      .openEv).1.waitTime = 3 := by
  refine ⟨?_, by norm_num, ?_⟩ <;>
    norm_num [runEvents, stepEvent, handleError, handleMessage, handleOpen, mkClient]

/-- C3 amended: the backoff wait time is reset to its base value 3 exactly
on the transport `open` event (which fires before the handshake
completes); no inbound message — in particular not READY_ACK — modifies
it. -/
theorem backoff_reset_on_open (c : Client) (m : Envelope) :
    (stepEvent c .openEv).1.waitTime = 3 ∧
    (stepEvent c (.msgEv m)).1.waitTime = c.waitTime := by
  refine ⟨rfl, ?_⟩
  simp only [stepEvent, handleMessage]
  repeat' split
  all_goals rfl

/-- C2 counterexample: a trace with two disconnect signals and no
successful handshake (no inbound message is processed at all), but with a
transport `open` event between them, ends with wait time 9/2, not
3 * (3/2)^2 = 27/4: the reset fires on `open`, before any handshake. -/
theorem backoff_not_pow_cex :
    (runEvents (mkClient "tok" 1 2)
      [.connectCall, .errorEv, .connectCall, .openEv, .closeEv 1006 "x"]).waitTime
      = 9 / 2 ∧
    (9 / 2 : ℚ) ≠ 3 * (3 / 2) ^ 2 := by
  refine ⟨?_, by norm_num⟩
  norm_num [runEvents, stepEvent, handleError, handleClose, handleOpen, mkClient]

/-- C2 amended: after N ≥ 1 consecutive disconnect signals (transport
error or transport close, in any combination) with no intervening
transport `open` event, the wait time equals 3 * (3/2)^N; growth is
applied on every disconnect and no cap is applied. -/
theorem backoff_growth_disconnects (token : String) (cid cc : ℚ)
    (es : List ConnEvent) (h1 : 1 ≤ es.length)
    (h : ∀ e ∈ es, e.isDisconnect = true) :
    (runEvents (mkClient token cid cc) es).waitTime = 3 * (3 / 2) ^ es.length := by
  rw [waitTime_runEvents_disconnects _ _ h, mkClient]

/-- Witness for C2: two disconnects (one error, one close) starting from a
fresh client yield wait time 3 * (3/2)^2 = 27/4. -/
theorem backoff_growth_disconnects_witness :
    (1 ≤ ([.errorEv, .closeEv 1006 "x"] : List ConnEvent).length ∧
      ∀ e ∈ ([.errorEv, .closeEv 1006 "x"] : List ConnEvent), e.isDisconnect = true) ∧
    (runEvents (mkClient "tok" 1 2) [.errorEv, .closeEv 1006 "x"]).waitTime
      = 3 * (3 / 2) ^ ([.errorEv, .closeEv 1006 "x"] : List ConnEvent).length :=
  ⟨⟨by simp, by simp [ConnEvent.isDisconnect]⟩,
   backoff_growth_disconnects "tok" 1 2 [.errorEv, .closeEv 1006 "x"]
     (by simp) (by simp [ConnEvent.isDisconnect])⟩

/-- C5: an inbound envelope whose opcode is outside {0,1,4,7,8,9}, received
while connected, closes the transport with code 4001 and nulls the handle
without itself scheduling a reconnect and without touching the
auto-reconnect flag; the subsequent transport close event schedules a
reconnect exactly when that flag is true. -/
theorem unknown_opcode_close_4001 (c : Client) (op : Int) (d : JVal)
    (hws : c.ws = .openSt) (hop : op ∉ ([0, 1, 4, 7, 8, 9] : List Int))
    (code : Int) (m : String) :
    (handleMessage c ⟨op, d⟩).2.closes = [4001] ∧
    (handleMessage c ⟨op, d⟩).1.ws = .absent ∧
    (handleMessage c ⟨op, d⟩).2.reconnectScheduled = false ∧
    (handleClose (handleMessage c ⟨op, d⟩).1 code m).2.reconnectScheduled
      = c.reconnect := by
  simp only [List.mem_cons, List.mem_singleton, not_or] at hop
  obtain ⟨h0, h1, h4, h7, h8, h9, -⟩ := hop
  simp [handleMessage, handleClose, Effects.none, h0, h1, h4, h7, h8, h9]

/-- Witness for C5: opcode 99 on the open demo client. -/
theorem unknown_opcode_close_4001_witness :
    (demoClient.ws = .openSt ∧ (99 : Int) ∉ ([0, 1, 4, 7, 8, 9] : List Int)) ∧
    ((handleMessage demoClient ⟨99, .null⟩).2.closes = [4001] ∧
     (handleMessage demoClient ⟨99, .null⟩).1.ws = .absent ∧
     (handleMessage demoClient ⟨99, .null⟩).2.reconnectScheduled = false ∧
     (handleClose (handleMessage demoClient ⟨99, .null⟩).1 1006 "m").2.reconnectScheduled
       = demoClient.reconnect) :=
  ⟨⟨rfl, by decide⟩,
   unknown_opcode_close_4001 demoClient 99 .null rfl (by decide) 1006 "m"⟩

/-- C6: `sendStats(5, "x", 0.2, 42)` on an open socket rejects with the
type-validation message, yet the `{op:3, d:{...}}` frame is still sent on
the transport — the executor does not return after `reject`, so the claim
that no frame is sent does not hold on the code. -/
theorem sendStats_invalid_still_sends :
    sendStats demoClient (.num 5) (.str "x") (.num (2 / 10)) (.num 42)
      = (.rejectedWith (.plainStr "all arguements must me numbers"),
         [⟨3, .obj [("guildCount", .num 5), ("cpuUsage", .str "x"),
                    ("memUsage", .num (2 / 10)), ("ping", .num 42)]⟩]) := by
  rfl

/-- C7 counterexample: two `remoteEval` calls issued within the same
clock millisecond (`Date.now()` returns 100 for both) produce the same
correlation id 100, and both pending entries then coexist
(`__remoteEvalUIDs = [100, 100]`): correlation ids are not distinct. -/
theorem uid_collision_cex :
    remoteEval demoClient 7 (.str "a") 100
      = .ok ({ demoClient with remoteEvalUIDs := [100] },
             ⟨9, .obj [("id", .num 7), ("data", .str "a"), ("uid", .num 100)]⟩,
             100) ∧
    remoteEval { demoClient with remoteEvalUIDs := [100] } 8 (.str "b") 100
      = .ok ({ demoClient with remoteEvalUIDs := [100, 100] },
             ⟨9, .obj [("id", .num 8), ("data", .str "b"), ("uid", .num 100)]⟩,
             100) := by
  exact ⟨rfl, rfl⟩

/-- C7 amended: the correlation id of a `remoteEval` call is exactly the
`Date.now()` reading at the call, so two calls are guaranteed distinct
correlation ids only when they observe distinct clock values; the code
performs no uniqueness check against pending entries. -/
theorem uid_distinct_of_distinct_clock (c c' : Client) (id1 id2 : ℚ)
    (d1 d2 : JVal) (n1 n2 : ℚ) (h : n1 ≠ n2) (r1 r2 : Client × Frame × ℚ)
    (h1 : remoteEval c id1 d1 n1 = .ok r1)
    (h2 : remoteEval c' id2 d2 n2 = .ok r2) :
    r1.2.2 ≠ r2.2.2 := by
  unfold remoteEval at h1 h2
  split at h1
  · split at h2
    · cases h1
      cases h2
      simpa using h
    · cases h2
  · cases h1

/-- Witness for C7: calls at clock readings 100 and 101 yield distinct
correlation ids. -/
theorem uid_distinct_of_distinct_clock_witness :
    ((100 : ℚ) ≠ 101 ∧
      remoteEval demoClient 7 (.str "a") 100
        = .ok ({ demoClient with remoteEvalUIDs := [100] },
               ⟨9, .obj [("id", .num 7), ("data", .str "a"), ("uid", .num 100)]⟩,
               100) ∧
      remoteEval demoClient 8 (.str "b") 101
        = .ok ({ demoClient with remoteEvalUIDs := [101] },
               ⟨9, .obj [("id", .num 8), ("data", .str "b"), ("uid", .num 101)]⟩,
               101)) ∧
    (({ demoClient with remoteEvalUIDs := [100] },
      (⟨9, .obj [("id", .num 7), ("data", .str "a"), ("uid", .num 100)]⟩ : Frame),
      (100 : ℚ)).2.2 ≠
     ({ demoClient with remoteEvalUIDs := [101] },
      (⟨9, .obj [("id", .num 8), ("data", .str "b"), ("uid", .num 101)]⟩ : Frame),
      (101 : ℚ)).2.2) :=
  ⟨⟨by norm_num, rfl, rfl⟩,
   uid_distinct_of_distinct_clock demoClient demoClient 7 8 (.str "a") (.str "b")
     100 101 (by norm_num) _ _ rfl rfl⟩

/-- C8: `disconnect(false)` closes the transport with code 1000, nulls the
handle and sets the auto-reconnect flag to false, so the subsequent
transport close event schedules no reconnect; `disconnect()` with no
argument preserves the previous flag value. -/
theorem disconnect_false_suppresses_reconnect (c : Client) (code : Int)
    (m : String) (hws : c.ws = .openSt) :
    (disconnectCall c (some false)).2.closes = [1000] ∧
    (disconnectCall c (some false)).1.ws = .absent ∧
    (disconnectCall c (some false)).1.reconnect = false ∧
    (handleClose (disconnectCall c (some false)).1 code m).2.reconnectScheduled
      = false ∧
    (disconnectCall c none).1.reconnect = c.reconnect := by
  simp [disconnectCall, handleClose, Effects.none]

/-- Witness for C8: the open demo client. -/
theorem disconnect_false_suppresses_reconnect_witness :
    demoClient.ws = .openSt ∧
    ((disconnectCall demoClient (some false)).2.closes = [1000] ∧
     (disconnectCall demoClient (some false)).1.ws = .absent ∧
     (disconnectCall demoClient (some false)).1.reconnect = false ∧
     (handleClose (disconnectCall demoClient (some false)).1 1000 "m").2.reconnectScheduled
       = false ∧
     (disconnectCall demoClient none).1.reconnect = demoClient.reconnect) :=
  ⟨rfl, disconnect_false_suppresses_reconnect demoClient 1000 "m" rfl⟩

/-- C9: whenever the socket is open, `sendLog` rejects its promise with
the `ReferenceError` raised by reading the undeclared variable `err`, and
no frame is ever sent; the promise never resolves. -/
theorem sendLog_always_rejects (c : Client) (log : JVal)
    (h : c.ws = .openSt) :
    sendLog c log = (.rejectedWith .refErrorErr, []) := by
  simp [sendLog, h]

/-- Witness for C9: the open demo client with a string log argument. -/
theorem sendLog_always_rejects_witness :
    demoClient.ws = .openSt ∧
    sendLog demoClient (.str "hello") = (.rejectedWith .refErrorErr, []) :=
  ⟨rfl, sendLog_always_rejects demoClient (.str "hello") rfl⟩

/-- C1: `remoteEval(7, "1+1")` on an open socket sends
`{op:9, d:{id:7, data:"1+1", uid:U}}` with `U` the clock reading and
registers `U` as pending; delivering the reply
`{op:9, d:{id:7, uid:U, data:2}}` to the transient listener resolves the
promise with 2, detaches the listener and deletes the pending entry for
`U`; delivering the identical reply a second time produces no further
resolution. -/
theorem remoteEval_roundtrip (c : Client) (U : ℚ) (hws : c.ws = .openSt)
    (hU : U ∉ c.remoteEvalUIDs) :
    remoteEval c 7 (.str "1+1") U
      = .ok ({ c with remoteEvalUIDs := c.remoteEvalUIDs ++ [U] },
             ⟨9, .obj [("id", .num 7), ("data", .str "1+1"), ("uid", .num U)]⟩,
             U) ∧
    evalListenerFeed (mkListener 7 U) (c.remoteEvalUIDs ++ [U])
        ⟨9, .obj [("id", .num 7), ("uid", .num U), ("data", .num 2)]⟩
      = ({ mkListener 7 U with attached := false }, c.remoteEvalUIDs,
         some (.num 2)) ∧
    evalListenerFeed { mkListener 7 U with attached := false }
        c.remoteEvalUIDs
        ⟨9, .obj [("id", .num 7), ("uid", .num U), ("data", .num 2)]⟩
      = ({ mkListener 7 U with attached := false }, c.remoteEvalUIDs,
         none) := by
  refine ⟨by simp [remoteEval, hws], ?_, rfl⟩
  simp [evalListenerFeed, mkListener, JVal.eqNum, JVal.get, getField,
        eraseFirst_append_self U c.remoteEvalUIDs hU]

/-- Witness for C1: the open demo client with clock reading 1000. -/
theorem remoteEval_roundtrip_witness :
    (demoClient.ws = .openSt ∧ (1000 : ℚ) ∉ demoClient.remoteEvalUIDs) ∧
    (remoteEval demoClient 7 (.str "1+1") 1000
      = .ok ({ demoClient with
                remoteEvalUIDs := demoClient.remoteEvalUIDs ++ [1000] },
             ⟨9, .obj [("id", .num 7), ("data", .str "1+1"),
                       ("uid", .num 1000)]⟩, 1000) ∧
     evalListenerFeed (mkListener 7 1000) (demoClient.remoteEvalUIDs ++ [1000])
        ⟨9, .obj [("id", .num 7), ("uid", .num 1000), ("data", .num 2)]⟩
      = ({ mkListener 7 1000 with attached := false },
         demoClient.remoteEvalUIDs, some (.num 2)) ∧
     evalListenerFeed { mkListener 7 1000 with attached := false }
        demoClient.remoteEvalUIDs
        ⟨9, .obj [("id", .num 7), ("uid", .num 1000), ("data", .num 2)]⟩
      = ({ mkListener 7 1000 with attached := false },
         demoClient.remoteEvalUIDs, none)) :=
  ⟨⟨rfl, by simp [demoClient, mkClient]⟩,
   remoteEval_roundtrip demoClient 1000 rfl (by simp [demoClient, mkClient])⟩

end Grafana
